import Mathlib

/-!
Shallow embedding of the rate-limit-aware GraphQL request engine in
src/extractor.py (class GitHubExtractor), covering the token pool, the
rate-limit handler, the retry loop of the request method, and the
repository-metadata fetcher.  Machine effects (HTTP requests issued,
sleeps, token rotations) are recorded in an explicit trace; the outcome
of each physical HTTP attempt is supplied by an oracle.
-/

namespace RepoPipeline

/-- Token pool of the extractor: src/extractor.py lines 33-36 store the
token list and an endless cycler (itertools.cycle) whose first element is
the initial current token.  Following the design note of the spec, the
cycler is embedded as the fixed token list plus a cursor counting how
many times the cycler has advanced; the active token is the cursor
modulo the pool size. -/
structure TokenPool where
  tokens : List String
  idx : Nat
deriving DecidableEq

/-- The currently active token (self._current_token). -/
def TokenPool.current (p : TokenPool) : String :=
  p.tokens.getD (p.idx % p.tokens.length) ""

/-- One step of the token cycler: _cycle_token (src/extractor.py lines
47-51) draws the next token from the endless cycler, cyclically. -/
def TokenPool.cycle (p : TokenPool) : TokenPool :=
  { p with idx := p.idx + 1 }

/-- Headers set by _set_headers (src/extractor.py lines 40-45) for the
given active token. -/
def headersFor (token : String) : List (String × String) :=
  [("Authorization", "Bearer " ++ token), ("Content-Type", "application/json")]

/-- The rateLimit object of a GraphQL response (src/extractor.py lines
152-155): limit, cost, remaining (rate_limit_data.get with default 0) and
the optional resetAt timestamp.  resetAt is embedded as the epoch value
obtained from datetime.fromisoformat(...).timestamp(); when the field is
absent the code substitutes time.time(), i.e. the current time. -/
structure RateLimitData where
  limit : Nat
  cost : Nat
  remaining : Nat
  resetAt : Option Int
deriving DecidableEq

/-- Decision of the rate-limit handler: cycle the token, sleep for a
duration in seconds, or do nothing. -/
inductive RateAction where
  | rotate : RateAction
  | sleep (duration : Int) : RateAction
  | cont : RateAction
deriving DecidableEq

/-- Body of the `remaining < 100` branch of _handle_rate_limit
(src/extractor.py lines 168-182): cycle the token when the pool has more
than one, otherwise sleep max(0, reset_time_utc - time.time()) + 10. -/
def lowQuotaBranch (nTokens : Nat) (resetTime now : Int) : RateAction :=
  if nTokens > 1 then .rotate else .sleep (max 0 (resetTime - now) + 10)

/-- Body of the `elif remaining == 0` branch of _handle_rate_limit
(src/extractor.py lines 183-195): cycle the token when the pool has more
than one, otherwise sleep max(0, reset_time_utc - time.time()) + 10. -/
def exhaustedBranch (nTokens : Nat) (resetTime now : Int) : RateAction :=
  if nTokens > 1 then .rotate else .sleep (max 0 (resetTime - now) + 10)

/-- The decision logic of _handle_rate_limit (src/extractor.py lines
144-195) as a pure function of the pool size, the rateLimit data and the
current time: `if remaining < 100: ... elif remaining == 0: ...` with the
two branch bodies above; otherwise no action. -/
def handle_rate_limit (nTokens : Nat) (rl : RateLimitData) (now : Int) : RateAction :=
  let resetTime := rl.resetAt.getD now
  if rl.remaining < 100 then lowQuotaBranch nTokens resetTime now
  else if rl.remaining = 0 then exhaustedBranch nTokens resetTime now
  else .cont

/-- Python exceptions that _make_graphql_request can raise or observe
(src/extractor.py lines 67-142). -/
inductive PyError where
  | nameError (name : String) : PyError
  | valueError (msg : String) : PyError
  | httpError (status : Nat) (body : String) : PyError
  | connectionError : PyError
  | timeout : PyError
  | jsonDecodeError : PyError
  | requestFailed : PyError
deriving DecidableEq

/-- One element of the errors list of a GraphQL response; err.get with
default "Unknown error" reads the optional message. -/
structure GraphQLError where
  message : Option String
deriving DecidableEq

/-- The data object of a GraphQL response: an optional rateLimit object
and an optional repository subtree (kept opaque as its JSON text). -/
structure ResponseData where
  rateLimit : Option RateLimitData
  repository : Option String
deriving DecidableEq

/-- A decoded GraphQL response body: optional top-level errors list and
optional data object (presence of the keys matters, so both are Option). -/
structure GraphQLResponse where
  errors : Option (List GraphQLError)
  data : Option ResponseData
deriving DecidableEq

/-- Python str.lower, written over the character list so that concrete
instances reduce in the kernel. -/
def pyLower (s : String) : String := ⟨s.data.map Char.toLower⟩

/-- Python substring membership `needle in hay` on strings, written over
the character lists so that concrete instances reduce in the kernel. -/
def pyIn (needle hay : String) : Bool :=
  (List.range (hay.data.length + 1)).any
    (fun i => needle.data.isPrefixOf (hay.data.drop i))

/-- Observable effects of one logical call: sleep durations in order,
number of token rotations, number of HTTP requests actually issued. -/
structure Trace where
  sleeps : List Int
  rotations : Nat
  posts : Nat
deriving DecidableEq

/-- Mutable state threaded through the retry loop. -/
structure LoopState where
  pool : TokenPool
  trace : Trace
deriving DecidableEq

/-- Effect of _cycle_token inside the loop: advance the pool and record
the rotation. -/
def rotateS (s : LoopState) : LoopState :=
  { pool := s.pool.cycle,
    trace := { s.trace with rotations := s.trace.rotations + 1 } }

/-- Effect of time.sleep: record the duration. -/
def pushSleep (s : LoopState) (d : Int) : LoopState :=
  { s with trace := { s.trace with sleeps := s.trace.sleeps ++ [d] } }

/-- Execute a rate-limit decision inside the loop: Rotate cycles the
token, a sleep blocks (recorded in the trace), Continue does nothing. -/
def applyRateAction (a : RateAction) (s : LoopState) : LoopState :=
  match a with
  | .rotate => rotateS s
  | .sleep d => pushSleep s d
  | .cont => s

deriving instance DecidableEq for Except

/-- Outcome of one loop iteration: continue with the next attempt, or
resolve with a result (returned payload or raised error). -/
inductive StepOut where
  | next (s : LoopState) : StepOut
  | done (r : Except PyError GraphQLResponse) (s : LoopState) : StepOut
deriving DecidableEq

/-- Joined error messages, as in the ValueError raised at line 98 of
src/extractor.py. -/
def apiErrorMsg (msgs : List String) : String :=
  "GraphQL API errors: " ++ String.intercalate "; " msgs

/-- One iteration of the retry loop of _make_graphql_request given the
outcome of evaluating the try block up to response.json()
(src/extractor.py lines 72-141): on a decoded response, handle GraphQL
errors (rotating and retrying on a rate-limit message, else raising
ValueError), else feed any rateLimit object to the handler and return the
payload; on HTTPError rotate for status 429 and retry with backoff while
attempts remain; on ConnectionError or Timeout retry with backoff while
attempts remain; on JSONDecodeError or any other exception re-raise. -/
def runAttempt (retries : Nat) (now : Int) (attempt : Nat)
    (postRes : Except PyError GraphQLResponse) (s : LoopState) : StepOut :=
  match postRes with
  | .ok respData =>
    match respData.errors with
    | some errs =>
      let msgs := errs.map (fun e => e.message.getD "Unknown error")
      if msgs.any (fun m => pyIn "rate limit exceeded" (pyLower m)) then
        let s2 := rotateS s
        if attempt < retries then .next (pushSleep s2 ((2 : Int) ^ attempt))
        else .done (.error (.valueError (apiErrorMsg msgs))) s2
      else .done (.error (.valueError (apiErrorMsg msgs))) s
    | none =>
      match respData.data with
      | some d =>
        match d.rateLimit with
        | some rl =>
          .done (.ok respData) (applyRateAction (handle_rate_limit s.pool.tokens.length rl now) s)
        | none => .done (.ok respData) s
      | none => .done (.ok respData) s
  | .error (.httpError status body) =>
    let s2 := if status = 429 then rotateS s else s
    if attempt < retries then .next (pushSleep s2 ((2 : Int) ^ attempt))
    else .done (.error (.httpError status body)) s2
  | .error .connectionError =>
    if attempt < retries then .next (pushSleep s ((2 : Int) ^ attempt))
    else .done (.error .connectionError) s
  | .error .timeout =>
    if attempt < retries then .next (pushSleep s ((2 : Int) ^ attempt))
    else .done (.error .timeout) s
  | .error e => .done (.error e) s

/-- Result of evaluating the expression at src/extractor.py lines 73-77:
either an exception was raised while evaluating the arguments of
requests.post, before any HTTP request went out, or the request was
issued and transport plus decoding yielded the given outcome. -/
inductive PostEval where
  | raisedBeforePost (e : PyError) : PostEval
  | posted (r : Except PyError GraphQLResponse) : PostEval

/-- The exception or decoded response an iteration observes. -/
def evalPost : PostEval → Except PyError GraphQLResponse
  | .raisedBeforePost e => .error e
  | .posted r => r

/-- How many HTTP requests this evaluation put on the wire. -/
def postCount : PostEval → Nat
  | .raisedBeforePost _ => 0
  | .posted _ => 1

/-- The loop `for attempt in range(retries + 1)` of _make_graphql_request
(src/extractor.py lines 71-142), driven by the per-attempt oracle.  The
fuel argument starts at retries + 1; when the loop body never resolves
the call, the loop ends and line 142 raises the generic retries-exhausted
Exception. -/
def runLoop (post : Nat → PostEval) (retries : Nat) (now : Int) :
    Nat → Nat → LoopState → Except PyError GraphQLResponse × LoopState
  | 0, _, s => (.error .requestFailed, s)
  | fuel + 1, attempt, s =>
    let pe := post attempt
    let s1 : LoopState :=
      { s with trace := { s.trace with posts := s.trace.posts + postCount pe } }
    match runAttempt retries now attempt (evalPost pe) s1 with
    | .next s2 => runLoop post retries now fuel (attempt + 1) s2
    | .done r s2 => (r, s2)

/-- The method _make_graphql_request as written (src/extractor.py lines
53-142): the body of requests.post is the name `payload` (line 74), which
is bound nowhere in the function, so evaluating the call arguments raises
NameError before any HTTP request is issued; the NameError falls to the
generic `except Exception` handler (line 136), which re-raises it.  The
query and variables arguments are therefore never used. -/
def make_graphql_request (query : String) (vars : List (String × String))
    (retries : Nat) (now : Int) (pool : TokenPool) :
    Except PyError GraphQLResponse × LoopState :=
  runLoop (fun _ => .raisedBeforePost (.nameError "payload")) retries now
    (retries + 1) 0 ⟨pool, ⟨[], 0, 0⟩⟩

/-- Modelled from the spec: the binding of the request body, `payload`
built as the JSON object of query and variables, is missing from
_make_graphql_request (src/extractor.py line 74 references an unbound
name).  This variant supplies the binding, so every loop iteration issues
the HTTP POST and the handlers of lines 76-142 run on the transport
outcome given by the oracle for that attempt index. -/
def make_graphql_request_fixed (oracle : Nat → Except PyError GraphQLResponse)
    (retries : Nat) (now : Int) (pool : TokenPool) :
    Except PyError GraphQLResponse × LoopState :=
  runLoop (fun n => .posted (oracle n)) retries now (retries + 1) 0 ⟨pool, ⟨[], 0, 0⟩⟩

/-- The fixed GraphQL document built by fetch_repository_metadata
(src/extractor.py lines 208-239); its text is opaque to every claim, so
it is embedded as its operation name. -/
def repositoryMetadataQuery : String := "GetRepositoryMetadata"

/-- fetch_repository_metadata (src/extractor.py lines 197-248): build the
query and variables, call _make_graphql_request with the default retry
budget, return response_data.get with key data then key repository; any
exception is caught, logged and turned into None. -/
def fetch_repository_metadata (owner name : String) (now : Int)
    (pool : TokenPool) : Option String :=
  match (make_graphql_request repositoryMetadataQuery
      [("owner", owner), ("name", name)] 3 now pool).1 with
  | .error _ => none
  | .ok respData => respData.data.bind (fun d => d.repository)

/-- Modelled from the spec: fetch_repository_metadata delegating to the
variant of the engine whose missing payload binding is supplied, so that
the try and except of src/extractor.py lines 242-248 is exercised on
every failure kind the engine can surface, not only the NameError. -/
def fetch_repository_metadata_fixed (owner name : String)
    (oracle : Nat → Except PyError GraphQLResponse) (now : Int)
    (pool : TokenPool) : Option String :=
  match (make_graphql_request_fixed oracle 3 now pool).1 with
  | .error _ => none
  | .ok respData => respData.data.bind (fun d => d.repository)

/-- Iterating the cycler adds the iteration count to the cursor. -/
theorem cycle_iterate (n : Nat) (p : TokenPool) :
    TokenPool.cycle^[n] p = ⟨p.tokens, p.idx + n⟩ := by
  induction n generalizing p with
  | zero => rfl
  | succ n ih =>
    rw [Function.iterate_succ_apply, ih]
    simp only [TokenPool.cycle]
    congr 1
    omega

/-- C7: credential rotation is cyclic: for a non-empty pool with any
active credential, K rotations (K the pool size) return to the original
active credential; one rotation advances the cursor to the next position
modulo the pool size; and from the last position one rotation wraps to
the first credential. -/
theorem token_rotation_cyclic (p : TokenPool) (h : p.tokens ≠ []) :
    (TokenPool.cycle^[p.tokens.length] p).current = p.current ∧
    (p.cycle).current = p.tokens.getD ((p.idx + 1) % p.tokens.length) "" ∧
    (p.idx % p.tokens.length = p.tokens.length - 1 →
      (p.cycle).current = p.tokens.getD 0 "") := by
  have hlen : 0 < p.tokens.length := List.length_pos.mpr h
  refine ⟨?_, rfl, ?_⟩
  · rw [cycle_iterate]
    simp only [TokenPool.current]
    rw [Nat.add_mod_right]
  · intro hlast
    have key : (p.idx + 1) % p.tokens.length = 0 := by
      rcases Nat.lt_or_ge 1 p.tokens.length with h2 | h2
      · rw [Nat.add_mod, hlast, Nat.mod_eq_of_lt h2,
          Nat.sub_add_cancel (by omega), Nat.mod_self]
      · have h1 : p.tokens.length = 1 := by omega
        simp [h1, Nat.mod_one]
    simp only [TokenPool.current, TokenPool.cycle]
    rw [key]

/-- C7 witness: three rotations of a three-token pool restore the active
credential. -/
theorem token_rotation_cyclic_witness :
    (TokenPool.cycle^[3] ⟨["a", "b", "c"], 0⟩).current =
      (⟨["a", "b", "c"], 0⟩ : TokenPool).current :=
  (token_rotation_cyclic ⟨["a", "b", "c"], 0⟩ (by decide)).1

/-- C5: a quota snapshot with remaining equal to zero, seen while the
pool holds more than one credential, makes the rate-limit handler rotate
and never sleep. -/
theorem exhausted_multi_token_rotates (n : Nat) (rl : RateLimitData) (now : Int)
    (hrem : rl.remaining = 0) (hn : 1 < n) :
    handle_rate_limit n rl now = .rotate ∧
    ∀ d, handle_rate_limit n rl now ≠ .sleep d := by
  have hmain : handle_rate_limit n rl now = .rotate := by
    unfold handle_rate_limit lowQuotaBranch
    rw [hrem]
    simp [hn]
  exact ⟨hmain, fun d hd => by rw [hmain] at hd; cases hd⟩

/-- C5 witness: concrete exhausted snapshot with a two-token pool. -/
theorem exhausted_multi_token_rotates_witness :
    handle_rate_limit 2 ⟨5000, 1, 0, some 100⟩ 50 = .rotate :=
  (exhausted_multi_token_rotates 2 ⟨5000, 1, 0, some 100⟩ 50 rfl (by decide)).1

/-- C6: a quota snapshot with remaining equal to zero, seen while the
pool holds exactly one credential, makes the handler sleep for
max 0 (resetAt - now) + 10 seconds; when resetAt is at or before now the
sleep is exactly 10 seconds (the pause ends at now + 10); when resetAt is
at or after now the pause ends at resetAt + 10. -/
theorem exhausted_single_token_pauses (rl : RateLimitData) (now : Int)
    (hrem : rl.remaining = 0) :
    handle_rate_limit 1 rl now = .sleep (max 0 (rl.resetAt.getD now - now) + 10) ∧
    (rl.resetAt.getD now ≤ now → handle_rate_limit 1 rl now = .sleep 10) ∧
    (now ≤ rl.resetAt.getD now →
      now + (max 0 (rl.resetAt.getD now - now) + 10) = rl.resetAt.getD now + 10) := by
  have hmain : handle_rate_limit 1 rl now =
      .sleep (max 0 (rl.resetAt.getD now - now) + 10) := by
    unfold handle_rate_limit lowQuotaBranch
    rw [hrem]
    simp
  refine ⟨hmain, fun hle => ?_, fun hge => ?_⟩
  · rw [hmain]
    have : max 0 (rl.resetAt.getD now - now) = 0 := by omega
    rw [this, zero_add]
  · omega

/-- C6 witness: a single-token pool with a reset time in the past sleeps
exactly 10 seconds. -/
theorem exhausted_single_token_pauses_witness :
    handle_rate_limit 1 ⟨5000, 1, 0, some 100⟩ 200 = .sleep 10 :=
  (exhausted_single_token_pauses ⟨5000, 1, 0, some 100⟩ 200 rfl).2.1 (by decide)

/-- C10: the test of the elif branch of _handle_rate_limit, reached only
when remaining is not below 100 yet equals 0, is unsatisfiable, so the
dedicated exhausted branch is dead code; its body is behaviorally equal
to the low-quota branch body, and an exhausted snapshot always takes the
low-quota branch. -/
theorem exhausted_branch_unreachable :
    (∀ remaining : Nat, ¬ (¬ remaining < 100 ∧ remaining = 0)) ∧
    (∀ (n : Nat) (resetTime now : Int),
      exhaustedBranch n resetTime now = lowQuotaBranch n resetTime now) ∧
    (∀ (n : Nat) (rl : RateLimitData) (now : Int), rl.remaining = 0 →
      handle_rate_limit n rl now = lowQuotaBranch n (rl.resetAt.getD now) now) := by
  refine ⟨fun r hr => by omega, fun n resetTime now => rfl, fun n rl now hrem => ?_⟩
  unfold handle_rate_limit
  rw [hrem]
  simp

/-- C10 witness: an exhausted snapshot takes the low-quota branch. -/
theorem exhausted_branch_unreachable_witness :
    handle_rate_limit 1 ⟨5000, 1, 0, some 100⟩ 0 = lowQuotaBranch 1 100 0 :=
  exhausted_branch_unreachable.2.2 1 ⟨5000, 1, 0, some 100⟩ 0 rfl

/-- C1: _make_graphql_request as written evaluates the unbound name
payload and raises NameError on the first attempt, for every query,
variables, retry budget and pool: no HTTP POST is ever issued (posts is
zero), no sleep and no rotation happen, so no request carrying the JSON
body of query and variables is made. -/
theorem make_graphql_request_raises_name_error (query : String)
    (vars : List (String × String)) (retries : Nat) (now : Int) (pool : TokenPool) :
    make_graphql_request query vars retries now pool =
      (.error (.nameError "payload"), ⟨pool, ⟨[], 0, 0⟩⟩) := rfl

/-- C2: fetch_repository_metadata returns None for every owner, name,
time and pool, because _make_graphql_request raises NameError on the
unbound name payload before any HTTP request is issued and the fetcher
converts every exception into None. -/
theorem fetch_repository_metadata_always_none (owner name : String)
    (now : Int) (pool : TokenPool) :
    fetch_repository_metadata owner name now pool = none ∧
    (make_graphql_request repositoryMetadataQuery [("owner", owner), ("name", name)]
        3 now pool).1 = .error (.nameError "payload") ∧
    (make_graphql_request repositoryMetadataQuery [("owner", owner), ("name", name)]
        3 now pool).2.trace.posts = 0 :=
  ⟨rfl, rfl, rfl⟩

/-- C9: whenever the engine (with the missing payload binding supplied)
surfaces any error at all, fetch_repository_metadata returns None: the
except clause at the public boundary converts every failure kind into
absence. -/
theorem fetch_returns_none_on_engine_error (owner name : String)
    (oracle : Nat → Except PyError GraphQLResponse) (now : Int) (pool : TokenPool)
    (e : PyError) (h : (make_graphql_request_fixed oracle 3 now pool).1 = .error e) :
    fetch_repository_metadata_fixed owner name oracle now pool = none := by
  unfold fetch_repository_metadata_fixed
  rw [h]

/-- C9 witness: an engine run that surfaces HttpError 404 yields None
from the fetcher. -/
theorem fetch_returns_none_on_engine_error_witness :
    fetch_repository_metadata_fixed "octocat" "Hello-World"
      (fun _ => .error (.httpError 404 "Not Found")) 0 ⟨["t0"], 0⟩ = none :=
  fetch_returns_none_on_engine_error "octocat" "Hello-World"
    (fun _ => .error (.httpError 404 "Not Found")) 0 ⟨["t0"], 0⟩
    (.httpError 404 "Not Found") (by rfl)

/-- Unfolding of one iteration of the retry loop. -/
theorem runLoop_succ (post : Nat → PostEval) (retries : Nat) (now : Int)
    (fuel attempt : Nat) (s : LoopState) :
    runLoop post retries now (fuel + 1) attempt s =
      (let pe := post attempt
       let s1 : LoopState :=
         { s with trace := { s.trace with posts := s.trace.posts + postCount pe } }
       match runAttempt retries now attempt (evalPost pe) s1 with
       | .next s2 => runLoop post retries now fuel (attempt + 1) s2
       | .done r s2 => (r, s2)) := rfl

/-- One full run of the retry loop under a constant non-429 HTTP error:
starting from any attempt index that leaves fuel + 1 iterations, the loop
sleeps the exponential backoff after every attempt short of the budget,
never rotates, issues one HTTP request per iteration and finally
re-raises the HTTPError itself. -/
theorem runLoop_const_http (status : Nat) (body : String) (hs : ¬ status = 429)
    (retries : Nat) (now : Int) :
    ∀ (fuel attempt : Nat), attempt + fuel = retries → ∀ s : LoopState,
      runLoop (fun _ => .posted (.error (.httpError status body))) retries now
        (fuel + 1) attempt s =
        (.error (.httpError status body),
          ⟨s.pool,
            ⟨s.trace.sleeps ++ (List.range' attempt fuel).map (fun a => (2 : Int) ^ a),
              s.trace.rotations, s.trace.posts + (fuel + 1)⟩⟩) := by
  intro fuel
  induction fuel with
  | zero =>
    intro attempt h s
    have ha : attempt = retries := by omega
    subst ha
    simp only [runLoop, evalPost, postCount, runAttempt, if_neg hs,
      lt_self_iff_false, if_false, List.range', List.map_nil, List.append_nil]
  | succ fuel ih =>
    intro attempt h s
    have hlt : attempt < retries := by omega
    rw [runLoop_succ]
    simp only [evalPost, postCount, runAttempt, if_neg hs, if_pos hlt]
    rw [ih (attempt + 1) (by omega)]
    simp only [pushSleep, List.range'_succ, List.map_cons, List.singleton_append,
      List.append_assoc, List.cons_append, List.nil_append, Prod.mk.injEq,
      LoopState.mk.injEq, Trace.mk.injEq]
    refine ⟨trivial, trivial, trivial, trivial, by omega⟩

/-- C3 (amended): under a constant HTTP error with status other than
429, the engine never rotates the credential, but it does retry: it
sleeps 2 to the power of the attempt index after every failed attempt
short of the budget, issues retries + 1 attempts in total, and only then
surfaces HttpError with the status and body. -/
theorem http_error_non_429_retried (status : Nat) (body : String) (retries : Nat)
    (now : Int) (pool : TokenPool) (hs : status ≠ 429) :
    make_graphql_request_fixed (fun _ => .error (.httpError status body))
      retries now pool =
      (.error (.httpError status body),
        ⟨pool, ⟨(List.range retries).map (fun a => (2 : Int) ^ a), 0, retries + 1⟩⟩) := by
  unfold make_graphql_request_fixed
  rw [runLoop_const_http status body hs retries now retries 0 (by omega)
    ⟨pool, ⟨[], 0, 0⟩⟩, List.range_eq_range']
  simp

/-- C3 witness: a constant HTTP 404 with the default budget of three
retries yields four attempts, sleeps of 1, 2 and 4 seconds, no rotation,
and HttpError 404. -/
theorem http_error_non_429_retried_witness :
    (404 : Nat) ≠ 429 ∧
    make_graphql_request_fixed (fun _ => .error (.httpError 404 "Not Found"))
      3 0 ⟨["t0"], 0⟩ =
      (.error (.httpError 404 "Not Found"),
        ⟨⟨["t0"], 0⟩, ⟨[1, 2, 4], 0, 4⟩⟩) :=
  ⟨by decide, by
    rw [http_error_non_429_retried 404 "Not Found" 3 0 ⟨["t0"], 0⟩ (by decide)]
    rfl⟩

/-- C3 counterexample: under a constant HTTP 404 with the default budget
the engine issues four attempts and sleeps 1, 2 and 4 seconds, so the
claim that it surfaces HttpError after exactly one attempt without
sleeping is false. -/
theorem http_error_non_429_counterexample :
    (make_graphql_request_fixed (fun _ => .error (.httpError 404 "Not Found"))
        3 0 ⟨["t0"], 0⟩).2.trace.posts = 4 ∧
    (make_graphql_request_fixed (fun _ => .error (.httpError 404 "Not Found"))
        3 0 ⟨["t0"], 0⟩).2.trace.sleeps = [1, 2, 4] ∧
    ¬ ((make_graphql_request_fixed (fun _ => .error (.httpError 404 "Not Found"))
        3 0 ⟨["t0"], 0⟩).2.trace.posts = 1 ∧
      (make_graphql_request_fixed (fun _ => .error (.httpError 404 "Not Found"))
        3 0 ⟨["t0"], 0⟩).2.trace.sleeps = []) := by
  decide

/-- C4 (amended): four consecutive transport failures (connection error
or timeout) under the default budget of three retries produce exactly
four attempts with sleeps of 1, 2 and 4 seconds between them, after
which the engine re-raises the final transport error itself; the generic
retries-exhausted exception of line 142 is not what is surfaced. -/
theorem transport_failures_exhaust_budget (pool : TokenPool) (now : Int) :
    make_graphql_request_fixed (fun _ => .error .connectionError) 3 now pool =
      (.error .connectionError, ⟨pool, ⟨[1, 2, 4], 0, 4⟩⟩) ∧
    make_graphql_request_fixed (fun _ => .error .timeout) 3 now pool =
      (.error .timeout, ⟨pool, ⟨[1, 2, 4], 0, 4⟩⟩) :=
  ⟨rfl, rfl⟩

/-- C4 counterexample: after four connection failures exhaust the default
budget, the surfaced error is the per-attempt transport error itself, not
the distinct retries-exhausted exception. -/
theorem retries_exhausted_not_surfaced :
    (make_graphql_request_fixed (fun _ => .error .connectionError)
        3 0 ⟨["t0"], 0⟩).1 = .error .connectionError ∧
    (make_graphql_request_fixed (fun _ => .error .connectionError)
        3 0 ⟨["t0"], 0⟩).1 ≠ .error .requestFailed := by
  decide

/-- C8: a transport-successful response whose errors list contains a
message with the rate-limit text (matched case-insensitively as a
substring) makes the engine rotate the credential; while attempts remain
it then sleeps the backoff and retries, and on the final attempt it
surfaces the ValueError carrying the joined GraphQL error messages. -/
theorem graphql_rate_limit_rotates_and_retries (retries attempt : Nat) (now : Int)
    (s : LoopState) (respData : GraphQLResponse) (errs : List GraphQLError)
    (hErr : respData.errors = some errs)
    (hMsg : (errs.map (fun e => e.message.getD "Unknown error")).any
      (fun m => pyIn "rate limit exceeded" (pyLower m)) = true) :
    (attempt < retries →
      runAttempt retries now attempt (.ok respData) s =
        .next (pushSleep (rotateS s) ((2 : Int) ^ attempt))) ∧
    (retries ≤ attempt →
      runAttempt retries now attempt (.ok respData) s =
        .done (.error (.valueError (apiErrorMsg
          (errs.map (fun e => e.message.getD "Unknown error"))))) (rotateS s)) := by
  constructor <;> intro hcmp
  · simp only [runAttempt, hErr, hMsg, if_true, if_pos hcmp]
  · simp only [runAttempt, hErr, hMsg, if_true, if_neg (Nat.not_lt.mpr hcmp)]

/-- C8 witness: with the rate-limit message, two retries remaining and
attempt index zero, the engine rotates and schedules a one-second
backoff before the retry; with the budget exhausted it rotates and
surfaces the ValueError carrying the message. -/
theorem graphql_rate_limit_rotates_and_retries_witness :
    runAttempt 3 0 0
      (.ok ⟨some [⟨some "API rate limit exceeded"⟩], none⟩)
      ⟨⟨["a", "b"], 0⟩, ⟨[], 0, 1⟩⟩ =
      .next (pushSleep (rotateS ⟨⟨["a", "b"], 0⟩, ⟨[], 0, 1⟩⟩) ((2 : Int) ^ 0)) ∧
    runAttempt 3 0 3
      (.ok ⟨some [⟨some "API rate limit exceeded"⟩], none⟩)
      ⟨⟨["a", "b"], 0⟩, ⟨[], 0, 1⟩⟩ =
      .done (.error (.valueError (apiErrorMsg ["API rate limit exceeded"])))
        (rotateS ⟨⟨["a", "b"], 0⟩, ⟨[], 0, 1⟩⟩) :=
  ⟨(graphql_rate_limit_rotates_and_retries 3 0 0 ⟨⟨["a", "b"], 0⟩, ⟨[], 0, 1⟩⟩
      ⟨some [⟨some "API rate limit exceeded"⟩], none⟩
      [⟨some "API rate limit exceeded"⟩] rfl (by decide)).1 (by decide),
    (graphql_rate_limit_rotates_and_retries 3 3 0 ⟨⟨["a", "b"], 0⟩, ⟨[], 0, 1⟩⟩
      ⟨some [⟨some "API rate limit exceeded"⟩], none⟩
      [⟨some "API rate limit exceeded"⟩] rfl (by decide)).2 (by decide)⟩

end RepoPipeline
